import Mathlib

/-!
Verification development for the WhaleSight container dashboard.

The definitions below are a shallow embedding of the repository's code:

* `computeMetrics` and its helper accessors embed the body of
  `DockerStats.get_container_stats` (src/docker_stats.py, lines 144-268):
  CPU/memory percentage derivation, byte-to-megabyte conversion, and the
  defaulting rules for optional fields of a Docker stats snapshot.
  Python dict keys that may be absent are `Option` fields; `d.get(k, v)`
  becomes `Option.getD`.  Python's `round(x, 2)` on the exact value is
  `pyRound2` (round half to even at two decimal places).
* `get_container_stats`, `get_all_container_stats`,
  `test_docker_connection` embed the corresponding methods, with the
  Docker client modelled as a `DockerEnv` whose fallible calls return
  `Except` values (a raised exception is `Except.error`, caught by the
  `try/except` of the Python code).
* `historyAppend` / `updateHistories` embed the history-retention loop of
  src/app.py (lines 70-83), including Python's `hist[-limit:]` slicing
  semantics (`pySliceLast`).
* `display_summary_metrics` embeds the fleet-summary fold of
  src/dashboard/metrics.py (lines 107-182), with the pandas column mean
  written out as sum / length (`pandasMean`).

Theorems `C1_…` to `C10_…` settle the frozen claims about this code.
-/

namespace WhaleSight

/-- Round a rational to the nearest integer, ties to even: the rounding mode
of Python 3's built-in `round` applied to an exact value. -/
def roundHalfEven (q : ℚ) : ℤ :=
  let f : ℤ := ⌊q⌋
  let frac : ℚ := q - (f : ℚ)
  if frac < 1/2 then f
  else if (1/2 : ℚ) < frac then f + 1
  else if f % 2 = 0 then f else f + 1

/-- Python's `round(x, 2)` on the exact rational value `x`. -/
def pyRound2 (q : ℚ) : ℚ := ((roundHalfEven (q * 100) : ℤ) : ℚ) / 100

/-! ## Raw stats snapshot (the dict returned by `container.stats(stream=False)`)

Keys that the Python code tests for presence (or reads with `.get`) are
`Option` fields. -/

/-- The `cpu_usage` sub-dict of `cpu_stats` / `precpu_stats`. -/
structure CpuUsageStats where
  total_usage : Option ℤ
  percpu_usage : Option (List ℤ)
deriving DecidableEq

/-- The `throttling_data` sub-dict of `cpu_stats`. -/
structure ThrottlingData where
  throttled_periods : Option ℕ
  throttled_time : Option ℕ
deriving DecidableEq

/-- The `cpu_stats` / `precpu_stats` dicts. -/
structure CpuStats where
  cpu_usage : Option CpuUsageStats
  system_cpu_usage : Option ℤ
  online_cpus : Option ℕ
  throttling_data : Option ThrottlingData
deriving DecidableEq

/-- The `memory_stats['stats']` sub-dict. -/
structure MemInnerStats where
  cache : Option ℕ
  swap : Option ℕ
  oom_kills : Option ℕ
deriving DecidableEq

/-- The `memory_stats` dict. -/
structure MemoryStats where
  usage : Option ℕ
  limit : Option ℕ
  stats : Option MemInnerStats
deriving DecidableEq

/-- One interface's entry in the `networks` dict. -/
structure NetIf where
  rx_bytes : Option ℕ
  tx_bytes : Option ℕ
  rx_dropped : Option ℕ
  tx_dropped : Option ℕ
  rx_errors : Option ℕ
  tx_errors : Option ℕ
deriving DecidableEq

/-- One entry of a recursive blkio list. -/
structure BlkioEntry where
  op : Option String
  value : Option ℕ
deriving DecidableEq

/-- The `blkio_stats` dict.  A key that is absent or bound to `None`
(the Python code checks both) is `none`. -/
structure BlkioStats where
  io_service_bytes_recursive : Option (List BlkioEntry)
  io_service_time_recursive : Option (List BlkioEntry)
  io_wait_time_recursive : Option (List BlkioEntry)
deriving DecidableEq

/-- The `pids_stats` dict. -/
structure PidsStats where
  current : Option ℕ
deriving DecidableEq

/-- A stats snapshot that passed the line-135 validity check: non-empty and
with both `cpu_stats` and `precpu_stats` keys present. -/
structure StatsSnapshot where
  cpu_stats : CpuStats
  precpu_stats : CpuStats
  memory_stats : Option MemoryStats
  networks : Option (List (String × NetIf))
  blkio_stats : Option BlkioStats
  pids_stats : Option PidsStats
deriving DecidableEq

/-! ## Metric derivation (docker_stats.py lines 144-268) -/

/-- Lines 144-150: the container CPU delta, `0` unless `cpu_usage` is present
in both `cpu_stats` and `precpu_stats` and `total_usage` in both of those. -/
def cpuDelta (s : StatsSnapshot) : ℤ :=
  match s.cpu_stats.cpu_usage, s.precpu_stats.cpu_usage with
  | some cu, some pu =>
    match cu.total_usage, pu.total_usage with
    | some c, some p => c - p
    | _, _ => 0
  | _, _ => 0

/-- Lines 152-153: the system CPU delta, `0` unless `system_cpu_usage` is
present in both snapshots. -/
def systemDelta (s : StatsSnapshot) : ℤ :=
  match s.cpu_stats.system_cpu_usage, s.precpu_stats.system_cpu_usage with
  | some c, some p => c - p
  | _, _ => 0

/-- Lines 155-156: `cpu_stats.get('online_cpus',
len(cpu_stats.get('cpu_usage', {}).get('percpu_usage', [1])))`. -/
def onlineCpus (s : StatsSnapshot) : ℕ :=
  match s.cpu_stats.online_cpus with
  | some n => n
  | none =>
    (match s.cpu_stats.cpu_usage with
     | some cu => cu.percpu_usage.getD [1]
     | none => [1]).length

/-- Lines 158-160: the unrounded CPU percentage. -/
def cpuPercentRaw (s : StatsSnapshot) : ℚ :=
  if 0 < systemDelta s ∧ 0 < cpuDelta s then
    ((cpuDelta s : ℚ) / (systemDelta s : ℚ)) * (onlineCpus s : ℚ) * 100
  else 0

/-- Lines 163-167: throttled period count, defaulting to `0`. -/
def throttledPeriods (s : StatsSnapshot) : ℕ :=
  match s.cpu_stats.throttling_data with
  | some td => td.throttled_periods.getD 0
  | none => 0

/-- Lines 163-167: throttled time, defaulting to `0`. -/
def throttledTime (s : StatsSnapshot) : ℕ :=
  match s.cpu_stats.throttling_data with
  | some td => td.throttled_time.getD 0
  | none => 0

/-- Line 170: `stats.get('memory_stats', {})`. -/
def memStats (s : StatsSnapshot) : MemoryStats :=
  s.memory_stats.getD ⟨none, none, none⟩

/-- Line 171: `mem_stats.get('usage', 0)`, in bytes. -/
def memUsageB (s : StatsSnapshot) : ℕ := (memStats s).usage.getD 0

/-- Line 172: `mem_stats.get('limit', 1)`, in bytes; the default is 1, placed
there to prevent a division by zero when the key is missing. -/
def memLimitB (s : StatsSnapshot) : ℕ := (memStats s).limit.getD 1

/-- The `memory_stats.get('stats', {})` sub-dict. -/
def memInner (s : StatsSnapshot) : MemInnerStats :=
  (memStats s).stats.getD ⟨none, none, none⟩

/-- Line 176: cache bytes, defaulting to `0`. -/
def memCacheB (s : StatsSnapshot) : ℕ := (memInner s).cache.getD 0

/-- Line 179: swap bytes, defaulting to `0`. -/
def memSwapB (s : StatsSnapshot) : ℕ := (memInner s).swap.getD 0

/-- Line 182: OOM kill count, defaulting to `0`. -/
def oomKills (s : StatsSnapshot) : ℕ := (memInner s).oom_kills.getD 0

/-- Line 173: the unrounded memory percentage, `0` when the limit is `0`. -/
def memPercentRaw (s : StatsSnapshot) : ℚ :=
  if 0 < memLimitB s then ((memUsageB s : ℚ) / (memLimitB s : ℚ)) * 100
  else 0

/-- Lines 184-199: sum one per-interface counter over all interfaces of the
`networks` dict, each read with a `0` default. -/
def netSum (s : StatsSnapshot) (f : NetIf → Option ℕ) : ℕ :=
  match s.networks with
  | some ifs => (ifs.map (fun p => (f p.2).getD 0)).sum
  | none => 0

/-- Select one recursive blkio list; absent key, absent `blkio_stats` dict or
a `None` value all give the empty list (lines 207-225). -/
def blkioEntries (s : StatsSnapshot)
    (sel : BlkioStats → Option (List BlkioEntry)) : List BlkioEntry :=
  match s.blkio_stats with
  | some b => (sel b).getD []
  | none => []

/-- Lines 210-215: bytes with `op == 'Read'` summed. -/
def blockRead (s : StatsSnapshot) : ℕ :=
  (((blkioEntries s (fun b => b.io_service_bytes_recursive)).filter
      (fun e => e.op == some "Read")).map (fun e => e.value.getD 0)).sum

/-- Lines 210-215: bytes with `op == 'Write'` summed. -/
def blockWrite (s : StatsSnapshot) : ℕ :=
  (((blkioEntries s (fun b => b.io_service_bytes_recursive)).filter
      (fun e => e.op == some "Write")).map (fun e => e.value.getD 0)).sum

/-- Lines 218-220: all service-time values summed. -/
def ioTime (s : StatsSnapshot) : ℕ :=
  ((blkioEntries s (fun b => b.io_service_time_recursive)).map
      (fun e => e.value.getD 0)).sum

/-- Lines 223-225: all wait-time values summed. -/
def ioWaitTime (s : StatsSnapshot) : ℕ :=
  ((blkioEntries s (fun b => b.io_wait_time_recursive)).map
      (fun e => e.value.getD 0)).sum

/-- Line 228: `stats.get('pids_stats', {}).get('current', 0)`. -/
def pidsCount (s : StatsSnapshot) : ℕ :=
  match s.pids_stats with
  | some p => p.current.getD 0
  | none => 0

/-- The numeric fields of the record a running container's successful fetch
returns (docker_stats.py lines 230-268). -/
structure Metrics where
  cpu_percent : ℚ
  cpu_throttled_periods : ℕ
  cpu_throttled_time : ℕ
  cpu_system_percent : ℚ
  mem_usage : ℚ
  mem_limit : ℚ
  mem_percent : ℚ
  mem_cache : ℚ
  mem_swap : ℚ
  oom_kills : ℕ
  network_rx : ℕ
  network_tx : ℕ
  network_rx_dropped : ℕ
  network_tx_dropped : ℕ
  network_rx_errors : ℕ
  network_tx_errors : ℕ
  block_read : ℕ
  block_write : ℕ
  io_time : ℕ
  io_wait_time : ℕ
  pids : ℕ
deriving DecidableEq

/-- Lines 144-268 of `DockerStats.get_container_stats`: derive the full
metric record from one raw stats snapshot. -/
def computeMetrics (s : StatsSnapshot) : Metrics where
  cpu_percent := pyRound2 (cpuPercentRaw s)
  cpu_throttled_periods := throttledPeriods s
  cpu_throttled_time := throttledTime s
  cpu_system_percent :=
    if 0 < systemDelta s ∧ 0 < onlineCpus s then
      pyRound2 (((systemDelta s : ℚ) / (onlineCpus s : ℚ)) * 100)
    else 0
  mem_usage := pyRound2 ((memUsageB s : ℚ) / 1048576)
  mem_limit := pyRound2 ((memLimitB s : ℚ) / 1048576)
  mem_percent := pyRound2 (memPercentRaw s)
  mem_cache :=
    if memCacheB s ≠ 0 then pyRound2 ((memCacheB s : ℚ) / 1048576) else 0
  mem_swap :=
    if memSwapB s ≠ 0 then pyRound2 ((memSwapB s : ℚ) / 1048576) else 0
  oom_kills := oomKills s
  network_rx := netSum s (fun d => d.rx_bytes)
  network_tx := netSum s (fun d => d.tx_bytes)
  network_rx_dropped := netSum s (fun d => d.rx_dropped)
  network_tx_dropped := netSum s (fun d => d.tx_dropped)
  network_rx_errors := netSum s (fun d => d.rx_errors)
  network_tx_errors := netSum s (fun d => d.tx_errors)
  block_read := blockRead s
  block_write := blockWrite s
  io_time := ioTime s
  io_wait_time := ioWaitTime s
  pids := pidsCount s

/-! ## Per-container records and the Docker environment -/

/-- The dict returned by `DockerStats.get_container_stats`.  The Python code
returns one of four dict shapes; each is a constructor.  The not-running,
unknown and error shapes carry no numeric metric fields, exactly as in the
source (lines 122-130, 135-142, 269-278). -/
inductive StatsRecord where
  | notRunning (id name status : String) (timestamp : ℚ)
  | unknown (id name : String) (timestamp : ℚ)
  | error (id err : String) (timestamp : ℚ)
  | running (id name status : String) (m : Metrics) (timestamp : ℚ)
deriving DecidableEq

/-- The `running` key of the record dict. -/
def StatsRecord.isRunning : StatsRecord → Bool
  | .running _ _ _ _ _ => true
  | _ => false

/-- The `status` key of the record dict. -/
def StatsRecord.statusOf : StatsRecord → String
  | .notRunning _ _ s _ => s
  | .unknown _ _ _ => "unknown"
  | .error _ _ _ => "error"
  | .running _ _ s _ _ => s

/-- The `id` key of the record dict. -/
def StatsRecord.idOf : StatsRecord → String
  | .notRunning i _ _ _ => i
  | .unknown i _ _ => i
  | .error i _ _ => i
  | .running i _ _ _ _ => i

/-- What `self.client.containers.get(container_id)` exposes of a container:
its name and status (the fields lines 123-133 read). -/
structure ContainerView where
  name : String
  status : String
deriving DecidableEq

/-- One row of `DockerStats.get_containers()`: the fields
`get_all_container_stats` reads (id and status). -/
structure Listing where
  id : String
  status : String
deriving DecidableEq

/-- The Docker client as seen by the embedded methods.  A call that raises an
exception is `Except.error` (caught by the source's `try/except`); `getStats`
returning `Except.ok none` models a falsy stats dict or one missing
`cpu_stats`/`precpu_stats` (the line-135 check). -/
structure DockerEnv where
  is_connected : Bool
  pingOk : Bool
  containers : List Listing
  getContainer : String → Except String ContainerView
  getStats : String → Except String (Option StatsSnapshot)
  now : ℚ

/-- The body of the `try` block of `DockerStats.get_container_stats`
(lines 119-278), with the `except` clause producing the error record. -/
def fetchRecord (env : DockerEnv) (container_id : String) : StatsRecord :=
  match env.getContainer container_id with
  | .error e => .error container_id e env.now
  | .ok c =>
    if c.status ≠ "running" then
      .notRunning container_id c.name c.status env.now
    else
      match env.getStats container_id with
      | .error e => .error container_id e env.now
      | .ok none => .unknown container_id c.name env.now
      | .ok (some s) => .running container_id c.name c.status (computeMetrics s) env.now

/-- `DockerStats.get_container_stats` (lines 114-278): `none` is the empty
dict returned when the client is not connected. -/
def get_container_stats (env : DockerEnv) (container_id : String) :
    Option StatsRecord :=
  if env.is_connected then some (fetchRecord env container_id) else none

/-- `DockerStats.get_all_container_stats` (lines 280-298): stats are fetched
only for containers listed with status `running`; a falsy per-container
result is skipped (`if stats:`); not connected gives the empty DataFrame. -/
def get_all_container_stats (env : DockerEnv) : List StatsRecord :=
  if env.is_connected then
    (env.containers.filter (fun c => c.status == "running")).filterMap
      (fun c => get_container_stats env c.id)
  else []

/-- `DockerStats.test_docker_connection` (lines 369-378): false when the
client never connected or when `ping()` raises. -/
def test_docker_connection (env : DockerEnv) : Bool :=
  env.is_connected && env.pingOk

/-- The connection gate of src/app.py lines 36-39: when
`test_docker_connection` fails the app stops (`st.stop()`) before any
polling; otherwise the poll cycle runs.  `none` is the stopped app. -/
def appStartPoll (env : DockerEnv) : Option (List StatsRecord) :=
  if test_docker_connection env then some (get_all_container_stats env)
  else none

/-! ## History retention (src/app.py lines 70-83) -/

/-- Python's `l[-n:]` for a non-negative `n` (for `n = 0` the slice is the
whole list). -/
def pySliceLast {α : Type} (n : ℕ) (l : List α) : List α :=
  if n = 0 then l else l.drop (l.length - n)

/-- One iteration of the history-update loop for one container: append the
new record, then truncate to the last `limit` records when over the limit
(app.py lines 79-83). -/
def historyAppend {α : Type} (limit : ℕ) (hist : List α) (rec : α) : List α :=
  if limit < (hist ++ [rec]).length then pySliceLast limit (hist ++ [rec])
  else hist ++ [rec]

/-- Dict membership/access on an association list: the first value bound to
the key, if any. -/
def histLookup {α : Type} (hs : List (String × α)) (k : String) : Option α :=
  match hs with
  | [] => none
  | (k2, v) :: t => if k2 = k then some v else histLookup t k

/-- The full loop body for one DataFrame row (app.py lines 70-83): create the
container's history on first sight, append, truncate.  The history map is an
association list in dict insertion order; dict assignment updates the value
at the key in place. -/
def histStep {α : Type} (limit : ℕ) (hs : List (String × List α))
    (row : String × α) : List (String × List α) :=
  match histLookup hs row.1 with
  | some old =>
    hs.map (fun p => (p.1, if p.1 = row.1 then historyAppend limit old row.2 else p.2))
  | none => hs ++ [(row.1, historyAppend limit [] row.2)]

/-- The whole per-poll history update: fold the loop body over the rows of
the fetched stats DataFrame. -/
def updateHistories {α : Type} (limit : ℕ) (hs : List (String × List α))
    (rows : List (String × α)) : List (String × List α) :=
  rows.foldl (histStep limit) hs

/-! ## Fleet summary (src/dashboard/metrics.py lines 107-182) -/

/-- A pandas column mean: sum divided by length. -/
def pandasMean (l : List ℚ) : ℚ := l.sum / (l.length : ℚ)

/-- The aggregate values `display_summary_metrics` computes and displays. -/
structure Summary where
  total_cpu : ℚ
  total_mem_usage : ℚ
  total_mem_limit : ℚ
  total_mem_percent : ℚ
  total_network_rx : ℕ
  total_network_tx : ℕ
  total_block_read : ℕ
  total_block_write : ℕ
  total_pids : ℕ
  count : ℕ
deriving DecidableEq

/-- `display_summary_metrics` (metrics.py lines 107-182) on the numeric rows
of the stats DataFrame: `none` is the early return on an empty frame.
`total_mem_limit` is literally `mean(mem_limit) * len`, as in line 122. -/
def display_summary_metrics (rs : List Metrics) : Option Summary :=
  if rs.isEmpty then none
  else
    let total_mem_usage := (rs.map (fun r => r.mem_usage)).sum
    let total_mem_limit := pandasMean (rs.map (fun r => r.mem_limit)) * (rs.length : ℚ)
    some
      { total_cpu := (rs.map (fun r => r.cpu_percent)).sum
        total_mem_usage := total_mem_usage
        total_mem_limit := total_mem_limit
        total_mem_percent :=
          if 0 < total_mem_limit then (total_mem_usage / total_mem_limit) * 100
          else 0
        total_network_rx := (rs.map (fun r => r.network_rx)).sum
        total_network_tx := (rs.map (fun r => r.network_tx)).sum
        total_block_read := (rs.map (fun r => r.block_read)).sum
        total_block_write := (rs.map (fun r => r.block_write)).sum
        total_pids := (rs.map (fun r => r.pids)).sum
        count := rs.length }

/-! ## Evaluation lemmas for the rounding function -/

/-- Evaluate `roundHalfEven` when the fractional part is below one half. -/
theorem roundHalfEven_of_lt (q : ℚ) (z : ℤ) (h1 : (z : ℚ) ≤ q)
    (h2 : q - (z : ℚ) < 1/2) : roundHalfEven q = z := by
  have hz : ⌊q⌋ = z := Int.floor_eq_iff.mpr ⟨h1, by linarith⟩
  simp only [roundHalfEven]
  rw [hz, if_pos h2]

/-- Evaluate `roundHalfEven` when the fractional part is above one half. -/
theorem roundHalfEven_of_gt (q : ℚ) (z : ℤ) (h1 : 1/2 < q - (z : ℚ))
    (h2 : q < (z : ℚ) + 1) : roundHalfEven q = z + 1 := by
  have h0 : (z : ℚ) ≤ q := by linarith
  have hz : ⌊q⌋ = z := Int.floor_eq_iff.mpr ⟨h0, h2⟩
  simp only [roundHalfEven]
  rw [hz, if_neg (by linarith), if_pos h1]

/-- Rounding an integer to two decimal places returns it unchanged. -/
theorem pyRound2_intCast (n : ℤ) : pyRound2 ((n : ℚ)) = (n : ℚ) := by
  have h : roundHalfEven ((n : ℚ) * 100) = n * 100 := by
    apply roundHalfEven_of_lt
    · push_cast
      exact le_refl _
    · push_cast
      norm_num
  simp only [pyRound2]
  rw [h]
  push_cast
  rw [mul_div_assoc]
  norm_num

/-- Rounding a natural number to two decimal places returns it unchanged. -/
theorem pyRound2_natCast (n : ℕ) : pyRound2 ((n : ℚ)) = (n : ℚ) := by
  have h := pyRound2_intCast (n : ℤ)
  push_cast at h
  exact h

/-- `round(0, 2) = 0`. -/
theorem pyRound2_zero : pyRound2 0 = 0 := by
  have h := pyRound2_natCast 0
  simpa using h

/-! ## Claim C1: CPU percentage formula -/

/-- Claim C1: in a successful stats fetch for a running container, if the
system CPU delta is ≤ 0 or the container CPU delta is ≤ 0 then the reported
`cpu_percent` is 0; otherwise it is `(cpu_delta / system_delta) *
online_cpus * 100`, rounded to two decimal digits. -/
theorem C1_cpu_percent_spec (s : StatsSnapshot) :
    (systemDelta s ≤ 0 ∨ cpuDelta s ≤ 0 → (computeMetrics s).cpu_percent = 0) ∧
    (0 < systemDelta s → 0 < cpuDelta s →
      (computeMetrics s).cpu_percent =
        pyRound2 (((cpuDelta s : ℚ) / (systemDelta s : ℚ)) *
          (onlineCpus s : ℚ) * 100)) := by
  constructor
  · intro h
    have hc : cpuPercentRaw s = 0 := by
      unfold cpuPercentRaw
      rw [if_neg]
      rintro ⟨h1, h2⟩
      rcases h with h | h <;> omega
    simp [computeMetrics, hc, pyRound2_zero]
  · intro h1 h2
    have hc : cpuPercentRaw s =
        ((cpuDelta s : ℚ) / (systemDelta s : ℚ)) * (onlineCpus s : ℚ) * 100 := by
      unfold cpuPercentRaw
      rw [if_pos ⟨h1, h2⟩]
    simp [computeMetrics, hc]

/-- Scenario A snapshot: container CPU 100 → 300 ns, system CPU 1000 → 3000
ns, `online_cpus = 2`. -/
def snapA : StatsSnapshot where
  cpu_stats := ⟨some ⟨some 300, none⟩, some 3000, some 2, none⟩
  precpu_stats := ⟨some ⟨some 100, none⟩, some 1000, none, none⟩
  memory_stats := none
  networks := none
  blkio_stats := none
  pids_stats := none

/-- Scenario A: the snapshot `snapA` satisfies the hypotheses of
`C1_cpu_percent_spec` and yields exactly `cpu_percent = 20.00`. -/
theorem C1_cpu_percent_spec_witness :
    0 < systemDelta snapA ∧ 0 < cpuDelta snapA ∧
      (computeMetrics snapA).cpu_percent = 20 := by
  refine ⟨by decide, by decide, ?_⟩
  have h := (C1_cpu_percent_spec snapA).2 (by decide) (by decide)
  rw [h]
  have hq : ((cpuDelta snapA : ℚ) / (systemDelta snapA : ℚ)) *
      (onlineCpus snapA : ℚ) * 100 = ((20 : ℤ) : ℚ) := by
    norm_num [cpuDelta, systemDelta, onlineCpus, snapA]
  rw [hq, pyRound2_intCast]
  norm_num

/-! ## Claim C2: memory normalization -/

/-- Claim C2: memory usage, limit, cache and swap are converted from bytes
to megabytes by dividing by 2^20 and rounding to two decimals, and memory
percent is `usage/limit * 100` (rounded) when the limit is positive and `0`
when the limit is `0`, with no error raised (the function is total). -/
theorem C2_memory_normalization (s : StatsSnapshot) :
    (computeMetrics s).mem_usage = pyRound2 ((memUsageB s : ℚ) / 2 ^ 20) ∧
    (computeMetrics s).mem_limit = pyRound2 ((memLimitB s : ℚ) / 2 ^ 20) ∧
    (computeMetrics s).mem_cache = pyRound2 ((memCacheB s : ℚ) / 2 ^ 20) ∧
    (computeMetrics s).mem_swap = pyRound2 ((memSwapB s : ℚ) / 2 ^ 20) ∧
    (0 < memLimitB s → (computeMetrics s).mem_percent =
      pyRound2 ((memUsageB s : ℚ) / (memLimitB s : ℚ) * 100)) ∧
    (memLimitB s = 0 → (computeMetrics s).mem_percent = 0) := by
  have h20 : (2 : ℚ) ^ 20 = 1048576 := by norm_num
  refine ⟨by simp [computeMetrics, h20], by simp [computeMetrics, h20], ?_, ?_, ?_, ?_⟩
  · by_cases hc : memCacheB s = 0
    · simp [computeMetrics, hc, pyRound2_zero]
    · simp [computeMetrics, hc, h20]
  · by_cases hc : memSwapB s = 0
    · simp [computeMetrics, hc, pyRound2_zero]
    · simp [computeMetrics, hc, h20]
  · intro h
    have hp : memPercentRaw s = (memUsageB s : ℚ) / (memLimitB s : ℚ) * 100 := by
      unfold memPercentRaw
      rw [if_pos h]
    simp [computeMetrics, hp]
  · intro h
    have hp : memPercentRaw s = 0 := by
      unfold memPercentRaw
      rw [if_neg (by omega)]
    simp [computeMetrics, hp, pyRound2_zero]

/-- Scenario B snapshot: memory usage 104857600 bytes, limit 1073741824
bytes. -/
def snapB : StatsSnapshot where
  cpu_stats := ⟨none, none, none, none⟩
  precpu_stats := ⟨none, none, none, none⟩
  memory_stats := some ⟨some 104857600, some 1073741824, none⟩
  networks := none
  blkio_stats := none
  pids_stats := none

/-- Scenario B: `snapB` satisfies the positive-limit hypothesis of
`C2_memory_normalization` and yields `mem_usage = 100.00` MB,
`mem_limit = 1024.00` MB and `mem_percent = 9.77`. -/
theorem C2_memory_normalization_witness :
    0 < memLimitB snapB ∧
    (computeMetrics snapB).mem_usage = 100 ∧
    (computeMetrics snapB).mem_limit = 1024 ∧
    (computeMetrics snapB).mem_percent = 977 / 100 := by
  have h := C2_memory_normalization snapB
  have husage : (memUsageB snapB : ℚ) = 104857600 := by
    norm_num [memUsageB, memStats, snapB]
  have hlimit : (memLimitB snapB : ℚ) = 1073741824 := by
    norm_num [memLimitB, memStats, snapB]
  refine ⟨by decide, ?_, ?_, ?_⟩
  · rw [h.1, husage]
    have : (104857600 : ℚ) / 2 ^ 20 = ((100 : ℤ) : ℚ) := by norm_num
    rw [this, pyRound2_intCast]
    norm_num
  · rw [h.2.1, hlimit]
    have : (1073741824 : ℚ) / 2 ^ 20 = ((1024 : ℤ) : ℚ) := by norm_num
    rw [this, pyRound2_intCast]
    norm_num
  · rw [h.2.2.2.2.1 (by decide), husage, hlimit]
    have hval : (104857600 : ℚ) / 1073741824 * 100 = 625 / 64 := by norm_num
    rw [hval]
    simp only [pyRound2]
    have hr : roundHalfEven ((625 : ℚ) / 64 * 100) = 976 + 1 := by
      apply roundHalfEven_of_gt
      · norm_num
      · norm_num
    rw [hr]
    norm_num

/-! ## Claim C3: bounded history -/

/-- Folding the per-poll append over a record sequence keeps exactly the last
`limit` records (for a positive limit). -/
theorem foldl_historyAppend {α : Type} (limit : ℕ) (hlim : 1 ≤ limit)
    (rs : List α) :
    rs.foldl (historyAppend limit) [] = rs.drop (rs.length - limit) := by
  induction rs using List.reverseRecOn with
  | nil => simp
  | append_singleton rs r ih =>
    rw [List.foldl_append, List.foldl_cons, List.foldl_nil, ih]
    by_cases hc : rs.length < limit
    · have hd : rs.length - limit = 0 := by omega
      rw [hd, List.drop_zero]
      unfold historyAppend
      rw [if_neg (by simp; omega)]
      have hd2 : (rs ++ [r]).length - limit = 0 := by simp; omega
      rw [hd2, List.drop_zero]
    · push_neg at hc
      have h1 : (rs.drop (rs.length - limit)).length = limit := by
        rw [List.length_drop]; omega
      have h2 : limit < (rs.drop (rs.length - limit) ++ [r]).length := by
        simp only [List.length_append, List.length_cons, List.length_nil, h1]
        omega
      unfold historyAppend
      rw [if_pos h2]
      unfold pySliceLast
      rw [if_neg (by omega)]
      have h3 : (rs.drop (rs.length - limit) ++ [r]).length - limit = 1 := by
        simp only [List.length_append, List.length_cons, List.length_nil, h1]
        omega
      rw [h3, List.drop_append_of_le_length (by omega : 1 ≤ (rs.drop (rs.length - limit)).length),
        List.drop_drop]
      have h4 : (rs ++ [r]).length - limit = (rs.length - limit) + 1 := by
        simp only [List.length_append, List.length_cons, List.length_nil]
        omega
      rw [h4,
        List.drop_append_of_le_length (by omega : (rs.length - limit) + 1 ≤ rs.length)]

/-- One history-update step on a single-entry map keyed by the same id
replaces that entry's history. -/
theorem histStep_singleton {α : Type} (limit : ℕ) (cid : String) (h : List α)
    (r : α) :
    histStep limit [(cid, h)] (cid, r) = [(cid, historyAppend limit h r)] := by
  simp [histStep, histLookup]

/-- Updating a single-entry map with rows all keyed by its id folds
`historyAppend` over the rows' records. -/
theorem updateHistories_singleKey {α : Type} (limit : ℕ) (cid : String)
    (rs : List α) :
    ∀ h : List α,
      updateHistories limit [(cid, h)] (rs.map (fun r => (cid, r))) =
        [(cid, rs.foldl (historyAppend limit) h)] := by
  induction rs with
  | nil =>
    intro h
    simp [updateHistories]
  | cons r rs ih =>
    intro h
    have hu : updateHistories limit [(cid, h)] ((r :: rs).map (fun x => (cid, x))) =
        updateHistories limit (histStep limit [(cid, h)] (cid, r))
          (rs.map (fun x => (cid, x))) := rfl
    rw [hu, histStep_singleton, ih (historyAppend limit h r)]
    rfl

/-- Claim C3: after more appends than the capacity, a container's stored
history holds exactly `capacity` entries, the most recent ones in arrival
order (append at the tail, eviction from the head). -/
theorem C3_bounded_history {α : Type} (limit : ℕ) (cid : String) (rs : List α)
    (h1 : 1 ≤ limit) (h2 : limit < rs.length) :
    histLookup (updateHistories limit [] (rs.map (fun r => (cid, r)))) cid =
      some (rs.drop (rs.length - limit)) ∧
    (rs.drop (rs.length - limit)).length = limit := by
  constructor
  · cases rs with
    | nil => simp at h2
    | cons r rs =>
      have hstep : updateHistories limit [] ((r :: rs).map (fun x => (cid, x))) =
          updateHistories limit [(cid, historyAppend limit [] r)]
            (rs.map (fun x => (cid, x))) := rfl
      rw [hstep, updateHistories_singleKey]
      have hfold : rs.foldl (historyAppend limit) (historyAppend limit [] r) =
          (r :: rs).foldl (historyAppend limit) [] := rfl
      simp only [histLookup, if_pos rfl]
      rw [hfold, foldl_historyAppend limit h1]
      simp
  · rw [List.length_drop]
    omega

/-- Scenario D: with capacity 3 and four appends R1..R4 for container c3, the
stored history is [R2, R3, R4]. -/
theorem C3_bounded_history_witness :
    1 ≤ 3 ∧ 3 < ([1, 2, 3, 4] : List ℕ).length ∧
    histLookup (updateHistories 3 [] (([1, 2, 3, 4] : List ℕ).map
      (fun r => ("c3", r)))) "c3" = some [2, 3, 4] := by
  have h := C3_bounded_history 3 "c3" ([1, 2, 3, 4] : List ℕ)
    (by decide) (by decide)
  exact ⟨by decide, by decide, by simpa using h.1⟩

/-! ## Claim C4: fleet summary consistency -/

/-- Claim C4: for any non-empty set of running-container records folded into
the fleet summary, the aggregate CPU percent is the sum of the records' CPU
percents, the weighted memory limit is `mean(limit) * count`, and the
aggregate memory percent is `total usage / weighted limit * 100` when the
weighted limit is positive and `0` otherwise. -/
theorem C4_fleet_summary (rs : List Metrics) (s : Summary) (hne : rs ≠ [])
    (hs : display_summary_metrics rs = some s) :
    s.total_cpu = (rs.map (fun r => r.cpu_percent)).sum ∧
    s.total_mem_usage = (rs.map (fun r => r.mem_usage)).sum ∧
    s.total_mem_limit = pandasMean (rs.map (fun r => r.mem_limit)) * (rs.length : ℚ) ∧
    (0 < s.total_mem_limit →
      s.total_mem_percent = s.total_mem_usage / s.total_mem_limit * 100) ∧
    (¬ 0 < s.total_mem_limit → s.total_mem_percent = 0) := by
  rw [display_summary_metrics, if_neg (by simpa using hne)] at hs
  injection hs with hs
  subst hs
  refine ⟨rfl, rfl, rfl, ?_, ?_⟩
  · intro h
    simp only at h ⊢
    rw [if_pos h]
  · intro h
    simp only at h ⊢
    rw [if_neg h]

/-- A concrete running-container record for the fleet-summary witness:
CPU 10%, 30 MB used of a 100 MB limit. -/
def mA : Metrics :=
  ⟨10, 0, 0, 0, 30, 100, 30, 0, 0, 0, 0, 0, 0, 0, 0, 0, 0, 0, 0, 0, 1⟩

/-- A second record for the fleet-summary witness: CPU 5%, 20 MB used of a
100 MB limit. -/
def mB : Metrics :=
  ⟨5, 0, 0, 0, 20, 100, 20, 0, 0, 0, 0, 0, 0, 0, 0, 0, 0, 0, 0, 0, 1⟩

/-- The summary the code produces for the fleet [mA, mB]. -/
def sAB : Summary := ⟨15, 50, 200, 25, 0, 0, 0, 0, 2, 2⟩

/-- Witness for C4 on the two-record fleet [mA, mB]: total CPU 15, weighted
limit 200 = mean(100,100)*2, memory percent 25 = 50/200*100. -/
theorem C4_fleet_summary_witness :
    ([mA, mB] : List Metrics) ≠ [] ∧
    display_summary_metrics [mA, mB] = some sAB ∧
    sAB.total_cpu = 15 ∧ sAB.total_mem_limit = 200 ∧ sAB.total_mem_percent = 25 := by
  have hs : display_summary_metrics [mA, mB] = some sAB := by
    simp only [display_summary_metrics, pandasMean, mA, mB, sAB]
    norm_num
  have h := C4_fleet_summary [mA, mB] sAB (by simp) hs
  have hcpu : sAB.total_cpu = 15 := by
    rw [h.1]
    norm_num [mA, mB]
  have hlimit : sAB.total_mem_limit = 200 := by
    rw [h.2.2.1]
    norm_num [pandasMean, mA, mB]
  have husage : sAB.total_mem_usage = 50 := by
    rw [h.2.1]
    norm_num [mA, mB]
  refine ⟨by simp, hs, hcpu, hlimit, ?_⟩
  rw [h.2.2.2.1 (by rw [hlimit]; norm_num), husage, hlimit]
  norm_num

/-! ## Claims C5 and C6: not-running containers and per-container failures -/

/-- When connected, the all-container fetch is exactly one record per
listing with status `running`, in listing order. -/
theorem getAll_eq_map (env : DockerEnv) (hconn : env.is_connected = true) :
    get_all_container_stats env =
      (env.containers.filter (fun c => c.status == "running")).map
        (fun c => fetchRecord env c.id) := by
  have hfm : ∀ l : List Listing,
      l.filterMap (fun c => some (fetchRecord env c.id)) =
        l.map (fun c => fetchRecord env c.id) := by
    intro l
    induction l with
    | nil => rfl
    | cons a t ih => simp [List.filterMap_cons, ih]
  simp only [get_all_container_stats, get_container_stats, hconn, if_true]
  exact hfm _

/-- Claim C5: a container observed with a status other than `running`
produces the minimal record (identity, name, status, timestamp; `running` is
false and no numeric field exists on that record shape), and every record of
the all-container fetch — the input folded into the fleet summary — comes
from a listing whose status is `running`. -/
theorem C5_not_running_minimal (env : DockerEnv) (cid name status : String)
    (hconn : env.is_connected = true)
    (hget : env.getContainer cid = .ok ⟨name, status⟩)
    (hstat : status ≠ "running") :
    get_container_stats env cid =
      some (.notRunning cid name status env.now) ∧
    (StatsRecord.notRunning cid name status env.now).isRunning = false ∧
    ∀ r ∈ get_all_container_stats env, ∃ c, c ∈ env.containers ∧
      c.status = "running" ∧ r = fetchRecord env c.id := by
  refine ⟨?_, rfl, ?_⟩
  · simp [get_container_stats, hconn, fetchRecord, hget, hstat]
  · intro r hr
    rw [getAll_eq_map env hconn] at hr
    obtain ⟨c, hc, rfl⟩ := List.mem_map.mp hr
    obtain ⟨hcm, hcp⟩ := List.mem_filter.mp hc
    exact ⟨c, hcm, by simpa using hcp, rfl⟩

/-- A Docker environment in which container c2 is listed as exited: its
fresh view also reports status exited. -/
def envC5 : DockerEnv where
  is_connected := true
  pingOk := true
  containers := [⟨"c2", "exited"⟩]
  getContainer := fun _ => .ok ⟨"web", "exited"⟩
  getStats := fun _ => .error "not running"
  now := 0

/-- Scenario C: polling exited container c2 in `envC5` yields the minimal
not-running record, and the all-container fetch (the fleet-summary input)
is empty, so c2's record is not folded into the summary. -/
theorem C5_not_running_minimal_witness :
    envC5.is_connected = true ∧ ("exited" : String) ≠ "running" ∧
    get_container_stats envC5 "c2" =
      some (.notRunning "c2" "web" "exited" 0) ∧
    get_all_container_stats envC5 = [] := by
  have h := C5_not_running_minimal envC5 "c2" "web" "exited" rfl rfl
    (by decide)
  exact ⟨rfl, by decide, h.1, by rfl⟩

/-- Claim C6: with a reachable runtime, a failure fetching one container's
snapshot does not abort the cycle: the all-container fetch still produces
one record per running-listed container, and the failed container's record
is the error record (running = false, status "error"), whether the failure
hit the container lookup or the stats call. -/
theorem C6_per_container_failure (env : DockerEnv)
    (hconn : env.is_connected = true) :
    get_all_container_stats env =
      (env.containers.filter (fun c => c.status == "running")).map
        (fun c => fetchRecord env c.id) ∧
    (∀ cid e, env.getContainer cid = .error e →
      fetchRecord env cid = .error cid e env.now ∧
      (fetchRecord env cid).isRunning = false ∧
      (fetchRecord env cid).statusOf = "error") ∧
    (∀ cid v e, env.getContainer cid = .ok v → v.status = "running" →
      env.getStats cid = .error e →
      fetchRecord env cid = .error cid e env.now) := by
  refine ⟨getAll_eq_map env hconn, ?_, ?_⟩
  · intro cid e hget
    refine ⟨?_, ?_, ?_⟩ <;> simp [fetchRecord, hget, StatsRecord.isRunning,
      StatsRecord.statusOf]
  · intro cid v e hget hstatus hstats
    simp [fetchRecord, hget, hstatus, hstats]

/-- A Docker environment where fetching container a's view raises while
container b polls normally. -/
def envC6 : DockerEnv where
  is_connected := true
  pingOk := true
  containers := [⟨"a", "running"⟩, ⟨"b", "running"⟩]
  getContainer := fun cid =>
    if cid = "a" then .error "boom" else .ok ⟨"bee", "running"⟩
  getStats := fun _ => .ok (some snapA)
  now := 0

/-- In `envC6` the failure on container a yields its error record while
container b's stats are still collected: the cycle is not aborted. -/
theorem C6_per_container_failure_witness :
    envC6.is_connected = true ∧
    get_all_container_stats envC6 =
      [.error "a" "boom" 0,
       .running "b" "bee" "running" (computeMetrics snapA) 0] ∧
    (StatsRecord.error "a" "boom" (0 : ℚ)).isRunning = false ∧
    (StatsRecord.error "a" "boom" (0 : ℚ)).statusOf = "error" := by
  have h := C6_per_container_failure envC6 rfl
  refine ⟨rfl, ?_, rfl, rfl⟩
  rw [h.1]
  rfl

/-! ## Claim C7: total connectivity failure -/

/-- A Docker environment whose client never connected (total outage). -/
def envDown : DockerEnv where
  is_connected := false
  pingOk := true
  containers := [⟨"c1", "running"⟩]
  getContainer := fun _ => .error "unreachable"
  getStats := fun _ => .error "unreachable"
  now := 0

/-- A healthy Docker environment with no containers at all. -/
def envEmpty : DockerEnv where
  is_connected := true
  pingOk := true
  containers := []
  getContainer := fun _ => .error "no such container"
  getStats := fun _ => .error "no such container"
  now := 0

/-- Counterexample to claim C7's "single aggregate failure signal
(distinguishable from an empty result)": on a total outage the aggregate
fetch returns exactly the same value as a successful poll of a fleet with
no containers — an empty collection. -/
theorem C7_outage_indistinguishable :
    envDown.is_connected = false ∧
    test_docker_connection envEmpty = true ∧
    get_all_container_stats envDown = get_all_container_stats envEmpty := by
  exact ⟨rfl, rfl, rfl⟩

/-- Claim C7 as amended: the aggregate fetch itself returns an empty
collection on an unreachable runtime (not a distinguishable failure value);
the connectivity error is surfaced by the liveness check consulted before
polling begins — when the client is unconnected or ping fails, the
app-level gate reports no connection and stops before any poll. -/
theorem C7_connectivity_gate (env : DockerEnv)
    (h : env.is_connected = false ∨ env.pingOk = false) :
    test_docker_connection env = false ∧ appStartPoll env = none ∧
    (env.is_connected = false → get_all_container_stats env = []) := by
  have ht : test_docker_connection env = false := by
    unfold test_docker_connection
    rcases h with h | h <;> simp [h]
  refine ⟨ht, ?_, ?_⟩
  · unfold appStartPoll
    rw [ht]
    simp
  · intro hc
    simp [get_all_container_stats, hc]

/-- On the concrete outage environment the gate fails and polling never
starts. -/
theorem C7_connectivity_gate_witness :
    (envDown.is_connected = false ∨ envDown.pingOk = false) ∧
    test_docker_connection envDown = false ∧ appStartPoll envDown = none := by
  have h := C7_connectivity_gate envDown (Or.inl rfl)
  exact ⟨Or.inl rfl, h.1, h.2.1⟩

/-! ## Claim C8: online CPU count fallback -/

/-- Claim C8 as amended: the online CPU count is read from the current
snapshot's `online_cpus`; when that key is absent it defaults to the length
of the current snapshot's `percpu_usage` list, and to 1 only when that list
is absent too. -/
theorem C8_online_cpus_fallback (s : StatsSnapshot) :
    (∀ n, s.cpu_stats.online_cpus = some n → onlineCpus s = n) ∧
    (∀ cu l, s.cpu_stats.online_cpus = none →
      s.cpu_stats.cpu_usage = some cu → cu.percpu_usage = some l →
      onlineCpus s = l.length) ∧
    (∀ cu, s.cpu_stats.online_cpus = none →
      s.cpu_stats.cpu_usage = some cu → cu.percpu_usage = none →
      onlineCpus s = 1) ∧
    (s.cpu_stats.online_cpus = none → s.cpu_stats.cpu_usage = none →
      onlineCpus s = 1) := by
  refine ⟨?_, ?_, ?_, ?_⟩ <;> intros <;> simp [onlineCpus, *]

/-- A snapshot with `online_cpus` absent but a two-entry `percpu_usage`
list; deltas 200 (container) and 2000 (system). -/
def snapC8 : StatsSnapshot where
  cpu_stats := ⟨some ⟨some 300, some [7, 9]⟩, some 3000, none, none⟩
  precpu_stats := ⟨some ⟨some 100, none⟩, some 1000, none, none⟩
  memory_stats := none
  networks := none
  blkio_stats := none
  pids_stats := none

/-- Counterexample to claim C8's "defaults to 1": with `online_cpus` absent
and `percpu_usage = [7, 9]`, the count used is 2, and the reported CPU
percent is 20, not the 10 a default of 1 would give. -/
theorem C8_default_not_one :
    snapC8.cpu_stats.online_cpus = none ∧
    onlineCpus snapC8 = 2 ∧ onlineCpus snapC8 ≠ 1 ∧
    (computeMetrics snapC8).cpu_percent = 20 ∧
    pyRound2 (((cpuDelta snapC8 : ℚ) / (systemDelta snapC8 : ℚ)) *
      (1 : ℚ) * 100) = 10 := by
  refine ⟨rfl, by decide, by decide, ?_, ?_⟩
  · have hc : cpuPercentRaw snapC8 = ((20 : ℤ) : ℚ) := by
      unfold cpuPercentRaw
      rw [if_pos ⟨by decide, by decide⟩]
      norm_num [cpuDelta, systemDelta, onlineCpus, snapC8]
    simp only [computeMetrics, hc, pyRound2_intCast]
    norm_num
  · have hv : ((cpuDelta snapC8 : ℚ) / (systemDelta snapC8 : ℚ)) *
        (1 : ℚ) * 100 = ((10 : ℤ) : ℚ) := by
      norm_num [cpuDelta, systemDelta, snapC8]
    rw [hv, pyRound2_intCast]
    norm_num

/-- `snapC8` discharges the fallback case of `C8_online_cpus_fallback`:
count 2 from the two-entry `percpu_usage` list. -/
theorem C8_online_cpus_fallback_witness :
    snapC8.cpu_stats.online_cpus = none ∧
    snapC8.cpu_stats.cpu_usage = some ⟨some 300, some [7, 9]⟩ ∧
    onlineCpus snapC8 = 2 := by
  have h := (C8_online_cpus_fallback snapC8).2.1 ⟨some 300, some [7, 9]⟩
    [7, 9] rfl rfl rfl
  exact ⟨rfl, rfl, by simpa using h⟩

/-! ## Claim C9: the per-container state map is never pruned -/

/-- Replacing values in an association list leaves key membership — hence
lookup success — unchanged. -/
theorem histLookup_map_snd {α β : Type} (hs : List (String × α))
    (f : String × α → β) (cid : String) :
    (histLookup (hs.map (fun p => (p.1, f p))) cid).isSome =
      (histLookup hs cid).isSome := by
  induction hs with
  | nil => rfl
  | cons p t ih =>
    obtain ⟨k, v⟩ := p
    by_cases hk : k = cid
    · simp [histLookup, hk]
    · simp [histLookup, hk, ih]

/-- Appending entries does not remove an existing key. -/
theorem histLookup_append_left {α : Type} (hs l : List (String × α))
    (cid : String) (h : (histLookup hs cid).isSome = true) :
    (histLookup (hs ++ l) cid).isSome = true := by
  induction hs with
  | nil => simp [histLookup] at h
  | cons p t ih =>
    obtain ⟨k, v⟩ := p
    by_cases hk : k = cid
    · simp [histLookup, hk]
    · simp only [List.cons_append, histLookup, hk, if_neg hk] at h ⊢
      exact ih h

/-- Claim C9 as amended: a poll cycle never prunes the history map — every
identity present before the cycle is still present after it, whether or not
it appears in the cycle's rows; only each history's length is bounded. -/
theorem C9_histories_retained {α : Type} (limit : ℕ)
    (hs : List (String × List α)) (rows : List (String × α)) (cid : String)
    (h : (histLookup hs cid).isSome = true) :
    (histLookup (updateHistories limit hs rows) cid).isSome = true := by
  induction rows generalizing hs with
  | nil => exact h
  | cons row t ih =>
    have hstep : (histLookup (histStep limit hs row) cid).isSome = true := by
      unfold histStep
      cases hl : histLookup hs row.1 with
      | some old => rw [histLookup_map_snd]; exact h
      | none => exact histLookup_append_left hs _ cid h
    exact ih (histStep limit hs row) hstep

/-- Counterexample to claim C9 as stated: after a cycle whose only row is
for container c2, the map still holds the entry for c1, an identity not in
that cycle's id set. -/
theorem C9_entry_survives_cycle :
    histLookup (updateHistories 3 [("c1", [(5 : ℕ)])] [("c2", 7)]) "c1" =
      some [5] ∧
    "c1" ∉ ([("c2", (7 : ℕ))].map (fun row => row.1)) := by
  exact ⟨rfl, by decide⟩

/-- The retention theorem applied at the concrete one-entry map and
one-row cycle. -/
theorem C9_histories_retained_witness :
    (histLookup [("c1", [(5 : ℕ)])] "c1").isSome = true ∧
    (histLookup (updateHistories 3 [("c1", [(5 : ℕ)])] [("c2", 7)])
      "c1").isSome = true := by
  have h := C9_histories_retained 3 [("c1", [(5 : ℕ)])] [("c2", 7)] "c1"
    (by decide)
  exact ⟨by decide, h⟩

/-! ## Claim C10: missing memory limit defaults to one byte -/

/-- Claim C10: when `memory_stats` lacks the `limit` key the limit defaults
to 1 byte, the record reports `mem_limit = 0.00` MB, and `mem_percent`
equals `usage_bytes * 100` instead of 0. -/
theorem C10_missing_limit_default (s : StatsSnapshot)
    (h : (memStats s).limit = none) :
    memLimitB s = 1 ∧
    (computeMetrics s).mem_limit = 0 ∧
    (computeMetrics s).mem_percent = (memUsageB s : ℚ) * 100 := by
  have h1 : memLimitB s = 1 := by simp [memLimitB, h]
  refine ⟨h1, ?_, ?_⟩
  · have hl : (computeMetrics s).mem_limit = pyRound2 ((1 : ℚ) / 1048576) := by
      simp [computeMetrics, h1]
    rw [hl]
    simp only [pyRound2]
    have hr : roundHalfEven ((1 : ℚ) / 1048576 * 100) = 0 := by
      apply roundHalfEven_of_lt _ 0 (by norm_num)
      norm_num
    rw [hr]
    norm_num
  · have hp : memPercentRaw s = (memUsageB s : ℚ) * 100 := by
      simp [memPercentRaw, h1]
    have hm : (computeMetrics s).mem_percent =
        pyRound2 ((memUsageB s : ℚ) * 100) := by
      simp [computeMetrics, hp]
    rw [hm]
    have hcast : (memUsageB s : ℚ) * 100 = ((memUsageB s * 100 : ℕ) : ℚ) := by
      push_cast
      ring
    rw [hcast, pyRound2_natCast]

/-- A snapshot with 104857600 bytes of usage and no `limit` key. -/
def snapC10 : StatsSnapshot where
  cpu_stats := ⟨none, none, none, none⟩
  precpu_stats := ⟨none, none, none, none⟩
  memory_stats := some ⟨some 104857600, none, none⟩
  networks := none
  blkio_stats := none
  pids_stats := none

/-- On `snapC10` the missing limit defaults to 1 byte: 0.00 MB reported and
an astronomically large memory percent of 10485760000. -/
theorem C10_missing_limit_default_witness :
    (memStats snapC10).limit = none ∧
    memLimitB snapC10 = 1 ∧
    (computeMetrics snapC10).mem_limit = 0 ∧
    (computeMetrics snapC10).mem_percent = 10485760000 := by
  have h := C10_missing_limit_default snapC10 rfl
  refine ⟨rfl, h.1, h.2.1, ?_⟩
  rw [h.2.2]
  norm_num [memUsageB, memStats, snapC10]

end WhaleSight
